import Mathlib

/-!
A shallow embedding, in Lean 4, of the crawler program `main.py`
(an 11st.co.kr category crawler: scroll, extract product fields,
download thumbnails, export to a spreadsheet).

The embedding models:
* Python string helpers used by the code (`str.replace`, `str.startswith`,
  substring membership, truthiness of optional strings);
* the DOM snapshot seen by `CrawlerThread.extract_products` (one record
  per product anchor, carrying exactly the attributes the code reads);
* the extraction routine with its per-field fallback chains;
* the scroll loop `CrawlerThread.scroll_gradually`;
* the download step `CrawlerThread.download_images` with URL
  normalization and filename sanitization;
* the crawl orchestration `CrawlerThread.crawl` / `CrawlerThread.run`
  with the cooperative cancellation flag (one-way: once cleared it stays
  cleared, modelled by an optional clock index from which every read of
  `self.is_running` returns false);
* the spreadsheet export `MainWindow.export_to_excel`.

External collaborators (playwright, requests, json, PIL, openpyxl, the
filesystem) are modelled as explicit environment parameters: the DOM
snapshot, the page-height sequence, an HTTP-GET oracle, a JSON-parse
oracle, and file-existence / image-decode oracles.
-/

/-! ## Python string primitives (models of the Python builtins used) -/

/-- Model of Python list/str prefix test on character lists:
`leadMatch p l` is true when `p` is an initial segment of `l`. -/
def leadMatch : List Char → List Char → Bool
  | [], _ => true
  | _ :: _, [] => false
  | a :: as, b :: bs => a = b && leadMatch as bs

/-- Model of Python `needle in haystack` on character lists: true when
`needle` occurs contiguously inside `haystack` (true for the empty needle,
as in Python). -/
def containsSeq (needle : List Char) : List Char → Bool
  | [] => needle.isEmpty
  | c :: t => leadMatch needle (c :: t) || containsSeq needle t

/-- Model of Python `s.startswith(p)`. -/
def pyStartsWith (s p : String) : Bool :=
  leadMatch p.toList s.toList

/-- Model of Python `needle in s` (substring membership). -/
def pyContainsSub (s needle : String) : Bool :=
  containsSeq needle.toList s.toList

/-- Model of Python `s.replace(old, new)` on character lists: replace
every non-overlapping occurrence of `old`, scanning left to right.  The
`fuel` argument makes the recursion structural; it is called with the
length of the scanned list, which bounds the recursion depth since every
step consumes at least one character. -/
def replaceSeq (old new : List Char) : Nat → List Char → List Char
  | 0, l => l
  | _ + 1, [] => []
  | fuel + 1, c :: rest =>
    if leadMatch old (c :: rest) then
      new ++ replaceSeq old new fuel (List.drop (old.length - 1) rest)
    else
      c :: replaceSeq old new fuel rest

/-- Model of Python `s.replace(old, new)`.  The code only calls it with
the non-empty pattern `&quot;`; the empty-pattern case (where Python
interleaves `new` everywhere) is mapped to the identity and never used. -/
def pyReplace (s old new : String) : String :=
  if old = "" then s
  else (replaceSeq old.toList new.toList s.toList.length s.toList).asString

/-- Python truthiness of an optional string (`None` and `""` are falsy). -/
def truthy : Option String → Bool
  | none => false
  | some s => !(s == "")

/-! ## The DOM snapshot and the product record -/

/-- The attributes `extract_products` reads from the `img` element found
under a product anchor's parent. -/
structure ImgElem where
  src : Option String
  dataSrc : Option String
  dataOriginal : Option String
deriving Repr, DecidableEq

/-- One product anchor (`a.c-card-item__anchor`) as seen by
`CrawlerThread.extract_products`: the `href` and `data-log-body`
attributes, the inner text of the `span.sr-only` child when that element
exists, the inner text of the sibling `strong.price` element when it
exists, and the `img` element under the parent when it exists. -/
structure Anchor where
  href : Option String
  dataLogBody : Option String
  nameElem : Option String
  priceElem : Option String
  imgElem : Option ImgElem
deriving Repr, DecidableEq

/-- The product dictionary built by `extract_products` (and enriched by
`download_images`).  Values that Python may leave as `None` are
`Option String`; `name`, `price` and `registered_date` are always
assigned a string by the code. -/
structure Product where
  url : Option String
  name : String
  price : String
  thumbnail : Option String
  registered_date : String
  thumbnail_local : Option String
deriving Repr, DecidableEq

/-- Model of the external `json.loads` followed by dictionary access:
maps the decoded `data-log-body` text to a flat string-valued key/value
list when parsing succeeds (the payloads the code reads are string
fields of a JSON object), or `none` when `json.loads` raises or the
result does not support `.get`. -/
def JsonOracle : Type := String → Option (List (String × String))

/-! ## The cancellation flag -/

/-- The cooperative cancellation flag `self.is_running`.  `stop()` clears
it exactly once, so the flag is modelled by the optional index of the
first read that observes it cleared: `isRun c k` is the value returned by
the `k`-th read of `self.is_running`. -/
def isRun (c : Option Nat) (k : Nat) : Bool :=
  match c with
  | none => true
  | some s => decide (k < s)

namespace CrawlerThread

/-! ## Field extraction (`CrawlerThread.extract_products`) -/

/-- Name resolution: the `span.sr-only` inner text, else `"N/A"`
(main.py lines 157-161). -/
def resolveName (a : Anchor) : String :=
  match a.nameElem with
  | some t => t
  | none => "N/A"

/-- Price resolution (main.py lines 165-177): the sibling
`strong.price` text when that element exists; else, when
`data-log-body` is truthy and contains `last_discount_price`, decode
`&quot;` to `"` and parse as JSON, reading `last_discount_price` with
default `"N/A"`; any parse failure, and every remaining case, yields
`"N/A"`. -/
def resolvePrice (j : JsonOracle) (a : Anchor) : String :=
  match a.priceElem with
  | some t => t
  | none =>
    if truthy a.dataLogBody && pyContainsSub (a.dataLogBody.getD "") "last_discount_price" then
      match j (pyReplace (a.dataLogBody.getD "") "&quot;" "\"") with
      | some kvs => (List.lookup "last_discount_price" kvs).getD "N/A"
      | none => "N/A"
    else "N/A"

/-- Thumbnail resolution (main.py lines 179-187): when no `img` element
exists the field is `"N/A"`; otherwise start from `src`, and replace the
current value by the next attribute whenever it is falsy (`None` or
`""`), ending on `data-original` unconditionally. -/
def resolveThumbnail (a : Anchor) : Option String :=
  match a.imgElem with
  | none => some "N/A"
  | some img =>
    let t1 := img.src
    let t2 := if !(truthy t1) then img.dataSrc else t1
    if !(truthy t2) then img.dataOriginal else t2

/-- The product record built for one anchor (main.py lines 152-191);
`today` is `datetime.now().strftime("%Y-%m-%d")`, read from the system
clock at extraction time. -/
def extractProduct (j : JsonOracle) (a : Anchor) (today : String) : Product :=
  { url := a.href
    name := resolveName a
    price := resolvePrice j a
    thumbnail := resolveThumbnail a
    registered_date := today
    thumbnail_local := none }

/-- The extraction loop body over the remaining anchors: one read of
`self.is_running` per iteration (main.py line 148); on a cleared flag
the loop breaks, keeping the products appended so far (which the caller
has already consed). Returns the products from this point on and the
clock after the last flag read. -/
def extractGo (c : Option Nat) (j : JsonOracle) (today : String) :
    Nat → List Anchor → List Product × Nat
  | k, [] => ([], k)
  | k, a :: rest =>
    if !(isRun c k) then ([], k + 1)
    else
      let r := extractGo c j today (k + 1) rest
      (extractProduct j a today :: r.1, r.2)

/-- `CrawlerThread.extract_products` (main.py lines 136-198): one flag
read on entry (line 140) returning `[]` when cleared, then the per-item
loop. -/
def extract_products (c : Option Nat) (k : Nat) (j : JsonOracle)
    (anchors : List Anchor) (today : String) : List Product × Nat :=
  if !(isRun c k) then ([], k + 1)
  else extractGo c j today (k + 1) anchors

/-! ## The scroll loop (`CrawlerThread.scroll_gradually`) -/

/-- The state in which the scroll loop of main.py lines 111-134 stops:
the final `scroll_count`, `last_height` and `current_position`, whether
the loop exited through the height-stability `break` (line 132), and the
clock after the last read of `self.is_running`. -/
structure ScrollResult where
  scroll_count : Nat
  last_height : Nat
  position : Nat
  broke : Bool
  clock : Nat
deriving Repr, DecidableEq

/-- One pass of the `while scroll_count < max_scrolls and self.is_running`
loop (main.py lines 120-134).  `fuel` counts the iterations still allowed
by the cap: it starts at `max_scrolls = 100` with `count = 0` and the two
always sum to 100, so `fuel = 0` is exactly the `scroll_count <
max_scrolls` test failing.  Each iteration advances the position by the
fixed step 800, sleeps (no effect in the model), reads the new page
height `heights cnt` (the height observed after the `cnt`-th scroll;
`heights 0` is the initial height), and on `current_position >=
new_height` either breaks (height unchanged) or records the new height
and resets the position to 0. -/
def scrollAux (c : Option Nat) (heights : Nat → Nat) :
    Nat → Nat → Nat → Nat → Nat → ScrollResult
  | 0, count, last, pos, k => ⟨count, last, pos, false, k⟩
  | fuel + 1, count, last, pos, k =>
    if !(isRun c k) then ⟨count, last, pos, false, k + 1⟩
    else
      let pos' := pos + 800
      let cnt := count + 1
      let nh := heights cnt
      if nh ≤ pos' then
        if nh = last then ⟨cnt, last, pos', true, k + 1⟩
        else scrollAux c heights fuel cnt nh 0 (k + 1)
      else scrollAux c heights fuel cnt last pos' (k + 1)

/-- `CrawlerThread.scroll_gradually` (main.py lines 111-134): initial
height `heights 0`, position 0, `scroll_count` 0, cap 100. -/
def scroll_gradually (c : Option Nat) (k : Nat) (heights : Nat → Nat) : ScrollResult :=
  scrollAux c heights 100 0 (heights 0) 0 k

/-! ## Image download (`CrawlerThread.download_images`) -/

/-- Model of `requests.get(url, timeout=10)`: `none` when the request
(or the subsequent file write) raises, otherwise the status code and the
response body bytes. -/
def HttpOracle : Type := String → Option (Nat × List Nat)

/-- Filename sanitization (main.py line 220): keep only alphanumerics,
spaces and underscores from the first 50 characters of the product name.
(`Char.isAlphanum` models Python `str.isalnum` on the ASCII range.) -/
def sanitizeName (name : String) : String :=
  ((name.toList.take 50).filter (fun ch => ch.isAlphanum || ch = ' ' || ch = '_')).asString

/-- URL normalization in the download step (main.py lines 213-216):
protocol-relative URLs get `https:`, root-relative URLs get the site
origin, anything else passes through. -/
def normalize_url (url : String) : String :=
  if pyStartsWith url "//" then "https:" ++ url
  else if pyStartsWith url "/" then "https://www.11st.co.kr" ++ url
  else url

/-- The body of the download loop for one product (main.py lines
210-230): skip unless the thumbnail is truthy and differs from `"N/A"`;
normalize the URL and GET it; on status 200 write the bytes to
`thumbnails/<idx>_<sanitized-name>.jpg` and set `thumbnail_local`; on any
other status, or when the oracle raises, leave the product unchanged
(the `except` clause catches and continues).  Returns the (possibly
enriched) product and the file writes performed. -/
def downloadOne (get : HttpOracle) (idx : Nat) (p : Product) :
    Product × List (String × List Nat) :=
  if truthy p.thumbnail ∧ p.thumbnail ≠ some "N/A" then
    let url := normalize_url (p.thumbnail.getD "")
    match get url with
    | some (status, content) =>
      if status = 200 then
        let filename := "thumbnails/" ++ toString idx ++ "_" ++ sanitizeName p.name ++ ".jpg"
        ({ p with thumbnail_local := some filename }, [(filename, content)])
      else (p, [])
    | none => (p, [])
  else (p, [])

/-- The download loop (main.py lines 206-230): one read of
`self.is_running` per product (line 207); a cleared flag breaks, leaving
the remaining products untouched but still in the list.  `idx` is the
1-based `enumerate` index. -/
def downloadGo (c : Option Nat) (get : HttpOracle) :
    Nat → Nat → List Product → List Product × List (String × List Nat) × Nat
  | k, _, [] => ([], [], k)
  | k, idx, p :: rest =>
    if !(isRun c k) then (p :: rest, [], k + 1)
    else
      let d := downloadOne get idx p
      let r := downloadGo c get (k + 1) (idx + 1) rest
      (d.1 :: r.1, d.2 ++ r.2.1, r.2.2)

/-- `CrawlerThread.download_images` (main.py lines 200-230).  Returns
the product list after the in-place `thumbnail_local` mutations, the
list of `(filename, bytes)` file writes, and the clock after the last
flag read. -/
def download_images (c : Option Nat) (k : Nat) (get : HttpOracle)
    (products : List Product) : List Product × List (String × List Nat) × Nat :=
  downloadGo c get k 1 products

/-! ## Crawl orchestration (`CrawlerThread.crawl` / `CrawlerThread.run`) -/

/-- The external world of one crawl run: whether `chromium.launch`,
`page.goto` and `page.wait_for_selector` raise, the page-height sequence
seen by the scroll loop, the DOM snapshot (product anchors), the JSON
and HTTP oracles, and the capture date. -/
structure CrawlEnv where
  launchFail : Bool
  gotoFail : Bool
  waitFail : Bool
  heights : Nat → Nat
  anchors : List Anchor
  jsonOracle : JsonOracle
  getOracle : HttpOracle
  today : String

/-- Observable outcome of `CrawlerThread.crawl`: the final value of
`self.products`, the payload of the `result` signal when it fired, the
clock index at which the `error` signal fired (if it did), the list the
extraction phase returned (the local `products` variable, recorded so
that discarded partial results remain observable), the file writes of
the download phase, whether an exception escaped `crawl` (only
`chromium.launch` can, being outside the inner `try`), and the clock
after the last flag read. -/
structure CrawlOut where
  products : List Product
  resultEmitted : Option (List Product)
  errorEmitted : Option Nat
  extracted : List Product
  writes : List (String × List Nat)
  raised : Bool
  clock : Nat
deriving Repr, DecidableEq

/-- `error.emit` guarded by `if self.is_running:`: records the clock of
the emission when the flag read returns true. -/
def emitIf (c : Option Nat) (k : Nat) : Option Nat :=
  if isRun c k then some k else none

/-- The tail of `crawl` from the scroll phase on (main.py lines 79-103,
reached with the flag still set after the line-75 check, clock 4):
scroll, check (line 83), extract, check (line 91), download guarded by
`if products and self.is_running:` (line 98, the flag read only happens
when the list is non-empty), and the final `if self.is_running:` (line
101) storing the list and emitting `result`. -/
def crawlMain (c : Option Nat) (env : CrawlEnv) : CrawlOut :=
  let sr := scroll_gradually c 4 env.heights
  if !(isRun c sr.clock) then
    ⟨[], none, none, [], [], false, sr.clock + 1⟩
  else
    let er := extract_products c (sr.clock + 1) env.jsonOracle env.anchors env.today
    if !(isRun c er.2) then
      ⟨[], none, none, er.1, [], false, er.2 + 1⟩
    else
      let dw :=
        if er.1.isEmpty then (er.1, ([] : List (String × List Nat)), er.2 + 1)
        else if isRun c (er.2 + 1) then download_images c (er.2 + 2) env.getOracle er.1
        else (er.1, [], er.2 + 2)
      if isRun c dw.2.2 then
        ⟨dw.1, some dw.1, none, er.1, dw.2.1, false, dw.2.2 + 1⟩
      else
        ⟨[], none, none, er.1, dw.2.1, false, dw.2.2 + 1⟩

/-- `CrawlerThread.crawl` (main.py lines 44-109): the entry check (line
45, clock 0), browser launch (which may raise past the inner `try`), the
checks at lines 59/66/75 interleaved with `page.goto` and
`wait_for_selector` whose exceptions are caught at line 105 and reported
through `error` only when the flag read at the catch returns true, then
the scroll/extract/download tail. -/
def crawl (c : Option Nat) (env : CrawlEnv) : CrawlOut :=
  if !(isRun c 0) then ⟨[], none, none, [], [], false, 1⟩
  else if env.launchFail then ⟨[], none, none, [], [], true, 1⟩
  else if !(isRun c 1) then ⟨[], none, none, [], [], false, 2⟩
  else if env.gotoFail then ⟨[], none, emitIf c 2, [], [], false, 3⟩
  else if !(isRun c 2) then ⟨[], none, none, [], [], false, 3⟩
  else if env.waitFail then ⟨[], none, emitIf c 3, [], [], false, 4⟩
  else if !(isRun c 3) then ⟨[], none, none, [], [], false, 4⟩
  else crawlMain c env

/-- Observable outcome of `CrawlerThread.run`: as `CrawlOut`, plus the
`finished` signal which the `finally` clause emits unconditionally. -/
structure RunOutcome where
  products : List Product
  resultEmitted : Option (List Product)
  errorEmitted : Option Nat
  finishedEmitted : Bool
  extracted : List Product
  writes : List (String × List Nat)
deriving Repr, DecidableEq

/-- `CrawlerThread.run` (main.py lines 35-42): run `crawl`; an exception
escaping it reaches the `except` clause, which emits `error` only when
`self.is_running` is still set; `finished` is always emitted by the
`finally` clause. -/
def run (c : Option Nat) (env : CrawlEnv) : RunOutcome :=
  let o := crawl c env
  { products := o.products
    resultEmitted := o.resultEmitted
    errorEmitted := if o.raised then emitIf c o.clock else o.errorEmitted
    finishedEmitted := true
    extracted := o.extracted
    writes := o.writes }

end CrawlerThread

namespace MainWindow

/-! ## Spreadsheet export (`MainWindow.export_to_excel`) -/

/-- The external world of the export step: `os.path.exists` on the local
image path, and whether the PIL decode / re-encode / `openpyxl` embed of
that path succeeds (the body of the inner `try` at main.py lines
415-455). -/
structure ExportEnv where
  fileExists : String → Bool
  decodeOk : String → Bool

/-- One data row of the produced worksheet: row number, the written
cells (sequence number, name, price, thumbnail URL, local path), whether
an image was embedded in column B and at which display size, and the row
height set for the row. -/
structure XRow where
  row_num : Nat
  seq : Nat
  name : String
  price : String
  thumbnail : Option String
  local_path : String
  hasImage : Bool
  imgWidth : Nat
  imgHeight : Nat
  rowHeight : Nat
deriving Repr, DecidableEq

/-- The produced workbook: the header row and the data rows in order. -/
structure Workbook where
  headers : List String
  rows : List XRow
deriving Repr, DecidableEq

/-- One data row (main.py lines 391-462) for the product at 1-based
position `idx`: `row_num = idx + 1`; cells from the product dictionary
(`.get` with default `''` for the local path); when the local path is
truthy and the file exists, embed the re-encoded image at 100×100 and
set row height 75, unless the decode raises, in which case (like the
no-file case) the row height is 30 and no image is embedded. -/
def exportRow (env : ExportEnv) (idx : Nat) (p : Product) : XRow :=
  let row_num := idx + 1
  let lp := p.thumbnail_local.getD ""
  if lp ≠ "" ∧ env.fileExists lp then
    if env.decodeOk lp then
      ⟨row_num, idx, p.name, p.price, p.thumbnail, lp, true, 100, 100, 75⟩
    else
      ⟨row_num, idx, p.name, p.price, p.thumbnail, lp, false, 0, 0, 30⟩
  else
    ⟨row_num, idx, p.name, p.price, p.thumbnail, lp, false, 0, 0, 30⟩

/-- The data rows for the products from 1-based position `idx` on. -/
def exportRows (env : ExportEnv) : Nat → List Product → List XRow
  | _, [] => []
  | idx, p :: rest => exportRow env idx p :: exportRows env (idx + 1) rest

/-- `MainWindow.export_to_excel` (main.py lines 359-482): with an empty
product list the method shows a warning and writes nothing (`none`);
otherwise one workbook with the fixed header row and one data row per
product, in list order. -/
def export_to_excel (env : ExportEnv) (products : List Product) : Option Workbook :=
  if products.isEmpty then none
  else some ⟨["순번", "대표이미지", "상품명", "가격", "썸네일URL", "로컬이미지경로"],
    exportRows env 1 products⟩

end MainWindow

/-! ## Helper lemmas -/

/-- A string starting with `//` also starts with `/`. -/
theorem leadMatch_two_slash {l : List Char} (h : leadMatch ['/', '/'] l = true) :
    leadMatch ['/'] l = true := by
  cases l with
  | nil => simp [leadMatch] at h
  | cons c t =>
    cases t with
    | nil => simp [leadMatch] at h
    | cons d t' =>
      simp [leadMatch] at h ⊢
      exact h.1

/-- `emitIf` only reports clocks at which the flag read returned true. -/
theorem emitIf_eq_some {c : Option Nat} {k k' : Nat}
    (h : CrawlerThread.emitIf c k = some k') : isRun c k' = true := by
  unfold CrawlerThread.emitIf at h
  split at h
  · cases h; assumption
  · cases h

/-- `crawlMain` (the scroll/extract/download tail) never emits `error`. -/
theorem crawlMain_error_none (c : Option Nat) (env : CrawlerThread.CrawlEnv) :
    (CrawlerThread.crawlMain c env).errorEmitted = none := by
  unfold CrawlerThread.crawlMain
  dsimp only
  simp only [apply_ite CrawlerThread.CrawlOut.errorEmitted, ite_self]

/-! ## C5: URL normalization in the download step -/

/-- C5: the download-step URL normalization maps every string starting
with `//` to `https:` prepended to it (so `//a/b.jpg` becomes
`https://a/b.jpg`), every string starting with a single `/` to
`https://www.11st.co.kr` prepended to it, and leaves every other
(fully-qualified) URL unchanged. -/
theorem C5_url_normalization (u : String) :
    (pyStartsWith u "//" = true → CrawlerThread.normalize_url u = "https:" ++ u) ∧
    (pyStartsWith u "//" = false → pyStartsWith u "/" = true →
      CrawlerThread.normalize_url u = "https://www.11st.co.kr" ++ u) ∧
    (pyStartsWith u "/" = false → CrawlerThread.normalize_url u = u) ∧
    CrawlerThread.normalize_url "//a/b.jpg" = "https://a/b.jpg" := by
  refine ⟨?_, ?_, ?_, by decide⟩
  · intro h
    simp [CrawlerThread.normalize_url, h]
  · intro h1 h2
    simp [CrawlerThread.normalize_url, h1, h2]
  · intro h
    have h2 : pyStartsWith u "//" = false := by
      by_contra hc
      have : pyStartsWith u "//" = true := by
        cases hx : pyStartsWith u "//" with
        | false => exact absurd hx hc
        | true => rfl
      exact absurd (leadMatch_two_slash this) (by simp [pyStartsWith] at h ⊢; exact h)
    simp [CrawlerThread.normalize_url, h, h2]

/-- C5 witness: the root-relative case at a concrete input. -/
theorem C5_url_normalization_witness :
    CrawlerThread.normalize_url "/b.jpg" = "https://www.11st.co.kr" ++ "/b.jpg" :=
  (C5_url_normalization "/b.jpg").2.1 (by decide) (by decide)

/-! ## C2: thumbnail fallback chain -/

/-- C2 counterexample: for an anchor whose `img` element has no usable
`src`, `data-src` or `data-original` (here: missing, empty, empty), the
thumbnail field ends up `None` — not the sentinel `"N/A"` the claim
requires when none of the three attributes yields a non-empty value. -/
theorem C2_counterexample :
    (⟨some "/p/1", none, some "Item", some "1,000", some ⟨none, some "", none⟩⟩ : Anchor).imgElem.isSome
        = true ∧
    (CrawlerThread.extractProduct (fun _ => none)
        ⟨some "/p/1", none, some "Item", some "1,000", some ⟨none, some "", none⟩⟩
        "2026-10-12").thumbnail = none ∧
    (CrawlerThread.extractProduct (fun _ => none)
        ⟨some "/p/1", none, some "Item", some "1,000", some ⟨none, some "", none⟩⟩
        "2026-10-12").thumbnail ≠ some "N/A" := by
  decide

/-- The thumbnail rule as the code actually implements it: with no `img`
element the sentinel `"N/A"`; otherwise the first truthy attribute among
`src`, `data-src`, `data-original`, falling through to the raw
`data-original` value (possibly `None` or `""`) when none is truthy. -/
def thumbSpecAmended (a : Anchor) : Option String :=
  match a.imgElem with
  | none => some "N/A"
  | some img =>
    if truthy img.src then img.src
    else if truthy img.dataSrc then img.dataSrc
    else img.dataOriginal

/-- C2 (amended): the thumbnail is resolved by trying `src`, `data-src`,
`data-original` in that order, taking the first non-empty value, and is
`"N/A"` when no `img` element exists; but when an `img` element exists
and none of the three attributes yields a non-empty value, the field
holds the raw `data-original` value (`None` or `""`), not `"N/A"`. -/
theorem C2_thumbnail_fallback (j : JsonOracle) (a : Anchor) (d : String) :
    (CrawlerThread.extractProduct j a d).thumbnail = thumbSpecAmended a := by
  show CrawlerThread.resolveThumbnail a = thumbSpecAmended a
  unfold CrawlerThread.resolveThumbnail thumbSpecAmended
  cases a.imgElem with
  | none => rfl
  | some img =>
    by_cases h1 : truthy img.src <;> by_cases h2 : truthy img.dataSrc <;>
      simp [h1, h2]

/-! ## C1: field presence and sentinel defaults -/

/-- C1 counterexample: an anchor with no `href` whose `img` element has
no usable attribute yields a record whose `url` and `thumbnail` are
`None` — not non-empty strings and not the `"N/A"` sentinel, refuting
the claim that all five fields are always non-empty strings with `"N/A"`
as the default. -/
theorem C1_counterexample :
    (CrawlerThread.extractProduct (fun _ => none)
        ⟨none, none, some "Item", some "1,000", some ⟨none, some "", none⟩⟩
        "2026-10-12").url = none ∧
    (CrawlerThread.extractProduct (fun _ => none)
        ⟨none, none, some "Item", some "1,000", some ⟨none, some "", none⟩⟩
        "2026-10-12").thumbnail = none := by
  decide

/-- C1 (amended): every appended record carries all five keys;
`registered_date` is always the capture date and `name` and `price`
default to `"N/A"` when their sources are absent, but `url` is the raw
`href` attribute (possibly `None`, never defaulted) and `thumbnail`
defaults to `"N/A"` only when no `img` element exists (with an `img`
element whose attributes are all unusable it can be `None` or empty). -/
theorem C1_field_defaults (j : JsonOracle) (a : Anchor) (d : String) :
    (CrawlerThread.extractProduct j a d).url = a.href ∧
    (CrawlerThread.extractProduct j a d).registered_date = d ∧
    (CrawlerThread.extractProduct j a d).thumbnail_local = none ∧
    (a.nameElem = none → (CrawlerThread.extractProduct j a d).name = "N/A") ∧
    (a.priceElem = none → a.dataLogBody = none →
      (CrawlerThread.extractProduct j a d).price = "N/A") ∧
    (a.imgElem = none → (CrawlerThread.extractProduct j a d).thumbnail = some "N/A") := by
  refine ⟨rfl, rfl, rfl, ?_, ?_, ?_⟩
  · intro h
    simp [CrawlerThread.extractProduct, CrawlerThread.resolveName, h]
  · intro h1 h2
    simp [CrawlerThread.extractProduct, CrawlerThread.resolvePrice, h1, h2, truthy]
  · intro h
    simp [CrawlerThread.extractProduct, CrawlerThread.resolveThumbnail, h]

/-- C1 witness: the sentinel defaults on a fully-empty anchor. -/
theorem C1_field_defaults_witness :
    (CrawlerThread.extractProduct (fun _ => none) ⟨none, none, none, none, none⟩
      "2026-10-12").name = "N/A" ∧
    (CrawlerThread.extractProduct (fun _ => none) ⟨none, none, none, none, none⟩
      "2026-10-12").price = "N/A" ∧
    (CrawlerThread.extractProduct (fun _ => none) ⟨none, none, none, none, none⟩
      "2026-10-12").thumbnail = some "N/A" := by
  obtain ⟨-, -, -, h1, h2, h3⟩ :=
    C1_field_defaults (fun _ => none) ⟨none, none, none, none, none⟩ "2026-10-12"
  exact ⟨h1 rfl, h2 rfl rfl, h3 rfl⟩

/-! ## C3: price resolution and the three-anchor scenario -/

/-- The model of `json.loads` on the decoded payload of the C3 scenario:
the blob `{"last_discount_price":"9,900"}` parses to the one-field
object; every other input is treated as a parse failure. -/
def scenarioJsonOracle : JsonOracle := fun s =>
  if s = "\x7b\"last_discount_price\":\"9,900\"\x7d" then
    some [("last_discount_price", "9,900")]
  else none

/-- C3 scenario anchor with a sibling price element. -/
def scenarioAnchorPrice : Anchor :=
  ⟨some "/p/1", none, some "First", some "12,900원", some ⟨some "//i/1.jpg", none, none⟩⟩

/-- C3 scenario anchor with only the entity-encoded JSON price blob. -/
def scenarioAnchorJson : Anchor :=
  ⟨some "/p/2", some "\x7b&quot;last_discount_price&quot;:&quot;9,900&quot;\x7d",
    some "Second", none, some ⟨none, some "//i/2.jpg", none⟩⟩

/-- C3 scenario anchor with neither price source. -/
def scenarioAnchorNone : Anchor :=
  ⟨some "/p/3", none, some "Third", none, some ⟨none, none, some "//i/3.jpg"⟩⟩

/-- C3: the price is the sibling price element's text when one exists;
otherwise, when the data attribute is present and contains
`last_discount_price`, it is the `last_discount_price` field of the JSON
obtained by decoding `&quot;` and parsing; any parse failure, and the
no-source case, yield `"N/A"`.  In the three-anchor scenario the
resulting prices are the element text, `"9,900"` and `"N/A"`, in
original order. -/
theorem C3_price_resolution (j : JsonOracle) (a : Anchor) (d : String) :
    (∀ t, a.priceElem = some t → (CrawlerThread.extractProduct j a d).price = t) ∧
    (a.priceElem = none →
      (truthy a.dataLogBody &&
        pyContainsSub (a.dataLogBody.getD "") "last_discount_price") = false →
      (CrawlerThread.extractProduct j a d).price = "N/A") ∧
    (a.priceElem = none →
      (truthy a.dataLogBody &&
        pyContainsSub (a.dataLogBody.getD "") "last_discount_price") = true →
      j (pyReplace (a.dataLogBody.getD "") "&quot;" "\"") = none →
      (CrawlerThread.extractProduct j a d).price = "N/A") ∧
    (a.priceElem = none →
      (truthy a.dataLogBody &&
        pyContainsSub (a.dataLogBody.getD "") "last_discount_price") = true →
      ∀ kvs, j (pyReplace (a.dataLogBody.getD "") "&quot;" "\"") = some kvs →
        (CrawlerThread.extractProduct j a d).price =
          (List.lookup "last_discount_price" kvs).getD "N/A") ∧
    (CrawlerThread.extract_products none 0 scenarioJsonOracle
        [scenarioAnchorPrice, scenarioAnchorJson, scenarioAnchorNone]
        "2026-10-12").1.map (·.price) = ["12,900원", "9,900", "N/A"] := by
  refine ⟨?_, ?_, ?_, ?_, by decide⟩
  · intro t h
    simp [CrawlerThread.extractProduct, CrawlerThread.resolvePrice, h]
  · intro h1 h2
    simp [CrawlerThread.extractProduct, CrawlerThread.resolvePrice, h1, h2]
  · intro h1 h2 h3
    simp [CrawlerThread.extractProduct, CrawlerThread.resolvePrice, h1, h2, h3]
  · intro h1 h2 kvs h3
    simp [CrawlerThread.extractProduct, CrawlerThread.resolvePrice, h1, h2, h3]

/-- C3 witness: the price-element case at a concrete input. -/
theorem C3_price_resolution_witness :
    (CrawlerThread.extractProduct scenarioJsonOracle scenarioAnchorPrice
      "2026-10-12").price = "12,900원" :=
  (C3_price_resolution scenarioJsonOracle scenarioAnchorPrice "2026-10-12").1
    "12,900원" rfl

/-! ## C9: determinism of the field extractor -/

/-- With the flag never cleared, the extraction loop is the pointwise
map of `extractProduct` over the snapshot, consuming one flag read per
anchor. -/
theorem extractGo_none (j : JsonOracle) (d : String) :
    ∀ (l : List Anchor) (k : Nat),
      CrawlerThread.extractGo none j d k l =
        (l.map (fun a => CrawlerThread.extractProduct j a d), k + l.length) := by
  intro l
  induction l with
  | nil => intro k; simp [CrawlerThread.extractGo]
  | cons a rest ih =>
    intro k
    simp [CrawlerThread.extractGo, isRun, ih (k + 1)]
    omega

/-- The record fields that do not come from the system clock. -/
def recordCore (p : Product) :
    Option String × String × String × Option String × Option String :=
  (p.url, p.name, p.price, p.thumbnail, p.thumbnail_local)

/-- C9 counterexample: running the extractor twice on the same DOM
snapshot on different capture dates yields different records, because
`registered_date` is read from the system clock — the extraction is not
a function of the snapshot alone. -/
theorem C9_counterexample :
    CrawlerThread.extract_products none 0 (fun _ => none)
        [⟨none, none, none, none, none⟩] "2026-10-11" ≠
      CrawlerThread.extract_products none 0 (fun _ => none)
        [⟨none, none, none, none, none⟩] "2026-10-12" := by
  decide

/-- C9 (amended): the extraction is a deterministic function of the DOM
snapshot and the capture date: it equals the pointwise map of the
per-anchor extractor over the snapshot, two runs on the same snapshot
agree on every field except `registered_date`, and `registered_date` is
exactly the run's capture date. -/
theorem C9_extract_deterministic (j : JsonOracle) (anchors : List Anchor)
    (d1 d2 : String) :
    (CrawlerThread.extract_products none 0 j anchors d1).1 =
      anchors.map (fun a => CrawlerThread.extractProduct j a d1) ∧
    ((CrawlerThread.extract_products none 0 j anchors d1).1.map recordCore =
      (CrawlerThread.extract_products none 0 j anchors d2).1.map recordCore) ∧
    (∀ p ∈ (CrawlerThread.extract_products none 0 j anchors d1).1,
      p.registered_date = d1) := by
  have hmap : ∀ d : String,
      (CrawlerThread.extract_products none 0 j anchors d).1 =
        anchors.map (fun a => CrawlerThread.extractProduct j a d) := by
    intro d
    simp [CrawlerThread.extract_products, isRun, extractGo_none]
  refine ⟨hmap d1, ?_, ?_⟩
  · rw [hmap d1, hmap d2]
    simp only [List.map_map]
    rfl
  · intro p hp
    rw [hmap d1] at hp
    obtain ⟨a, -, rfl⟩ := List.mem_map.mp hp
    rfl

/-- C9 witness: the date-independent projection agrees across two runs
on a concrete snapshot, and the head record's `registered_date` is the
first run's capture date. -/
theorem C9_extract_deterministic_witness :
    ((CrawlerThread.extract_products none 0 (fun _ => none)
          [⟨none, none, none, none, none⟩] "2026-10-11").1.map recordCore =
      (CrawlerThread.extract_products none 0 (fun _ => none)
          [⟨none, none, none, none, none⟩] "2026-10-12").1.map recordCore) ∧
    (CrawlerThread.extractProduct (fun _ => none) ⟨none, none, none, none, none⟩
      "2026-10-11").registered_date = "2026-10-11" := by
  have h := C9_extract_deterministic (fun _ => none)
    [⟨none, none, none, none, none⟩] "2026-10-11" "2026-10-12"
  refine ⟨h.2.1, h.2.2 _ ?_⟩
  rw [h.1]
  simp

/-! ## C4: termination and stop condition of the scroll loop -/

/-- Invariant proof for the scroll loop: starting with `fuel + count =
100` and a position divisible by the 800-step, the loop ends with at
most 100 iterations, a position divisible by 800; if it exited through
the `break`, the height observed at the final iteration equals the
recorded height and the position has reached it; and (absent
cancellation) if it did not break it ran all 100 iterations. -/
theorem scrollAux_spec (c : Option Nat) (heights : Nat → Nat) :
    ∀ (fuel count last pos k : Nat), fuel + count = 100 → pos % 800 = 0 →
      (CrawlerThread.scrollAux c heights fuel count last pos k).scroll_count ≤ 100 ∧
      (CrawlerThread.scrollAux c heights fuel count last pos k).position % 800 = 0 ∧
      ((CrawlerThread.scrollAux c heights fuel count last pos k).broke = true →
        heights (CrawlerThread.scrollAux c heights fuel count last pos k).scroll_count =
          (CrawlerThread.scrollAux c heights fuel count last pos k).last_height ∧
        (CrawlerThread.scrollAux c heights fuel count last pos k).last_height ≤
          (CrawlerThread.scrollAux c heights fuel count last pos k).position) ∧
      (c = none →
        (CrawlerThread.scrollAux c heights fuel count last pos k).broke = false →
        (CrawlerThread.scrollAux c heights fuel count last pos k).scroll_count = 100) := by
  intro fuel
  induction fuel with
  | zero =>
    intro count last pos k hsum hpos
    refine ⟨?_, ?_, ?_, ?_⟩
    · show count ≤ 100
      omega
    · exact hpos
    · intro h
      simp [CrawlerThread.scrollAux] at h
    · intro _ _
      show count = 100
      omega
  | succ fuel ih =>
    intro count last pos k hsum hpos
    rw [CrawlerThread.scrollAux]
    cases hr : isRun c k with
    | true =>
      rw [if_neg (by simp [hr])]
      dsimp only
      by_cases h1 : heights (count + 1) ≤ pos + 800
      · rw [if_pos h1]
        by_cases h2 : heights (count + 1) = last
        · rw [if_pos h2]
          refine ⟨?_, ?_, ?_, ?_⟩
          · show count + 1 ≤ 100
            omega
          · show (pos + 800) % 800 = 0
            omega
          · intro _
            exact ⟨h2, by show last ≤ pos + 800; omega⟩
          · intro _ h
            simp at h
        · rw [if_neg h2]
          exact ih (count + 1) (heights (count + 1)) 0 (k + 1) (by omega) (by omega)
      · rw [if_neg h1]
        exact ih (count + 1) last (pos + 800) (k + 1) (by omega) (by omega)
    | false =>
      rw [if_pos (by simp [hr])]
      refine ⟨?_, hpos, ?_, ?_⟩
      · show count ≤ 100
        omega
      · intro h
        simp at h
      · intro hc _
        subst hc
        simp [isRun] at hr

/-- C4: for every page-height sequence (and any cancellation pattern)
the scroll loop executes at most 100 iterations and the position it
reaches is a multiple of the 800 step; when it stops through the
height-stability break, the height observed at the final iteration
equals the last recorded height and the position has reached it; and
without cancellation the loop stops before the cap only through that
break (otherwise it runs exactly 100 iterations). -/
theorem C4_scroll_termination (heights : Nat → Nat) (c : Option Nat) (k : Nat) :
    (CrawlerThread.scroll_gradually c k heights).scroll_count ≤ 100 ∧
    (CrawlerThread.scroll_gradually c k heights).position % 800 = 0 ∧
    ((CrawlerThread.scroll_gradually c k heights).broke = true →
      heights (CrawlerThread.scroll_gradually c k heights).scroll_count =
        (CrawlerThread.scroll_gradually c k heights).last_height ∧
      (CrawlerThread.scroll_gradually c k heights).last_height ≤
        (CrawlerThread.scroll_gradually c k heights).position) ∧
    (c = none → (CrawlerThread.scroll_gradually c k heights).broke = false →
      (CrawlerThread.scroll_gradually c k heights).scroll_count = 100) :=
  scrollAux_spec c heights 100 0 (heights 0) 0 k rfl rfl

/-- C4 witness: on the constant-zero height sequence the loop breaks on
the first iteration with the recorded height reached. -/
theorem C4_scroll_termination_witness :
    (CrawlerThread.scroll_gradually none 0 (fun _ => 0)).scroll_count ≤ 100 ∧
    (CrawlerThread.scroll_gradually none 0 (fun _ => 0)).last_height ≤
      (CrawlerThread.scroll_gradually none 0 (fun _ => 0)).position := by
  have h := C4_scroll_termination (fun _ => 0) none 0
  exact ⟨h.1, (h.2.2.1 (by decide)).2⟩

/-! ## C6: per-item download contract -/

/-- With the flag never cleared, the download loop keeps the list length. -/
theorem downloadGo_none_length (get : CrawlerThread.HttpOracle) :
    ∀ (ps : List Product) (k idx : Nat),
      (CrawlerThread.downloadGo none get k idx ps).1.length = ps.length := by
  intro ps
  induction ps with
  | nil => intro k idx; simp [CrawlerThread.downloadGo]
  | cons p rest ih =>
    intro k idx
    simp [CrawlerThread.downloadGo, isRun, ih (k + 1) (idx + 1)]

/-- With the flag never cleared, the download loop acts pointwise: the
`i`-th output product is `downloadOne` of the `i`-th input, at the
enumeration index `idx + i`. -/
theorem downloadGo_none_get (get : CrawlerThread.HttpOracle) :
    ∀ (ps : List Product) (k idx i : Nat),
      (CrawlerThread.downloadGo none get k idx ps).1[i]? =
        (ps[i]?).map (fun q => (CrawlerThread.downloadOne get (idx + i) q).1) := by
  intro ps
  induction ps with
  | nil => intro k idx i; simp [CrawlerThread.downloadGo]
  | cons p rest ih =>
    intro k idx i
    cases i with
    | zero => simp [CrawlerThread.downloadGo, isRun]
    | succ i =>
      simp only [CrawlerThread.downloadGo, isRun, Bool.not_true, Bool.false_eq_true,
        if_false, List.getElem?_cons_succ]
      rw [ih (k + 1) (idx + 1) i]
      have : idx + 1 + i = idx + (i + 1) := by omega
      rw [this]


/-- `downloadOne` on a skipped product (thumbnail falsy or `"N/A"`). -/
theorem downloadOne_skip (get : CrawlerThread.HttpOracle) (idx : Nat) (p : Product)
    (hcond : ¬(truthy p.thumbnail = true ∧ p.thumbnail ≠ some "N/A")) :
    CrawlerThread.downloadOne get idx p = (p, []) := by
  unfold CrawlerThread.downloadOne
  rw [if_neg hcond]

/-- `downloadOne` when the GET (or the file write) raises. -/
theorem downloadOne_raise (get : CrawlerThread.HttpOracle) (idx : Nat) (p : Product)
    (hcond : truthy p.thumbnail = true ∧ p.thumbnail ≠ some "N/A")
    (hget : get (CrawlerThread.normalize_url (p.thumbnail.getD "")) = none) :
    CrawlerThread.downloadOne get idx p = (p, []) := by
  unfold CrawlerThread.downloadOne
  rw [if_pos hcond]
  dsimp only
  rw [hget]

/-- `downloadOne` on a non-200 status. -/
theorem downloadOne_badStatus (get : CrawlerThread.HttpOracle) (idx : Nat) (p : Product)
    (status : Nat) (content : List Nat)
    (hcond : truthy p.thumbnail = true ∧ p.thumbnail ≠ some "N/A")
    (hget : get (CrawlerThread.normalize_url (p.thumbnail.getD "")) = some (status, content))
    (hst : status ≠ 200) :
    CrawlerThread.downloadOne get idx p = (p, []) := by
  unfold CrawlerThread.downloadOne
  rw [if_pos hcond]
  dsimp only
  rw [hget]
  dsimp only
  rw [if_neg hst]

/-- `downloadOne` on a 200 status: the local path is set and the bytes
are written. -/
theorem downloadOne_ok (get : CrawlerThread.HttpOracle) (idx : Nat) (p : Product)
    (content : List Nat)
    (hcond : truthy p.thumbnail = true ∧ p.thumbnail ≠ some "N/A")
    (hget : get (CrawlerThread.normalize_url (p.thumbnail.getD "")) = some (200, content)) :
    CrawlerThread.downloadOne get idx p =
      ({ p with thumbnail_local := some ("thumbnails/" ++ toString idx ++ "_" ++ CrawlerThread.sanitizeName p.name ++ ".jpg") },
        [("thumbnails/" ++ toString idx ++ "_" ++ CrawlerThread.sanitizeName p.name ++ ".jpg", content)]) := by
  unfold CrawlerThread.downloadOne
  rw [if_pos hcond]
  dsimp only
  rw [hget]
  rfl

/-- C6: the `thumbnail_local` field of a freshly-extracted product is
set by the download step exactly when the (normalized) thumbnail URL was
fetchable with status 200; when set, it holds
`thumbnails/<idx>_<sanitized-name>.jpg` and exactly those bytes were
written to that file; and with the flag never cleared every product of
the batch is attempted independently — a failing item (oracle raises or
non-200 status) leaves its own `thumbnail_local` unset without affecting
the others. -/
theorem C6_download_contract (get : CrawlerThread.HttpOracle) (idx : Nat)
    (p : Product) (k : Nat) (ps : List Product) (i : Nat) :
    (p.thumbnail_local = none →
      ((CrawlerThread.downloadOne get idx p).1.thumbnail_local.isSome = true ↔
        (truthy p.thumbnail = true ∧ p.thumbnail ≠ some "N/A" ∧
          ∃ content,
            get (CrawlerThread.normalize_url (p.thumbnail.getD "")) = some (200, content)))) ∧
    (∀ fn, p.thumbnail_local = none →
      (CrawlerThread.downloadOne get idx p).1.thumbnail_local = some fn →
      fn = "thumbnails/" ++ toString idx ++ "_" ++ CrawlerThread.sanitizeName p.name ++ ".jpg" ∧
      ∃ content, (CrawlerThread.downloadOne get idx p).2 = [(fn, content)] ∧
        get (CrawlerThread.normalize_url (p.thumbnail.getD "")) = some (200, content)) ∧
    ((CrawlerThread.download_images none k get ps).1.length = ps.length) ∧
    ((CrawlerThread.download_images none k get ps).1[i]? =
      (ps[i]?).map (fun q => (CrawlerThread.downloadOne get (1 + i) q).1)) := by
  refine ⟨?_, ?_, downloadGo_none_length get ps k 1, downloadGo_none_get get ps k 1 i⟩
  · intro hnone
    by_cases hcond : truthy p.thumbnail = true ∧ p.thumbnail ≠ some "N/A"
    · cases hget : get (CrawlerThread.normalize_url (p.thumbnail.getD "")) with
      | none =>
        rw [downloadOne_raise get idx p hcond hget]
        simp [hnone, hget]
      | some sc =>
        obtain ⟨status, content⟩ := sc
        by_cases hst : status = 200
        · subst hst
          rw [downloadOne_ok get idx p content hcond hget]
          simp [hcond.1, hcond.2, hget]
        · rw [downloadOne_badStatus get idx p status content hcond hget hst]
          simp [hnone, hget]
          intro _ _ c
          exact hst c
    · rw [downloadOne_skip get idx p hcond]
      simp [hnone]
      intro ht hna
      exact absurd ⟨ht, hna⟩ hcond
  · intro fn hnone hset
    by_cases hcond : truthy p.thumbnail = true ∧ p.thumbnail ≠ some "N/A"
    · cases hget : get (CrawlerThread.normalize_url (p.thumbnail.getD "")) with
      | none =>
        rw [downloadOne_raise get idx p hcond hget] at hset
        simp [hnone] at hset
      | some sc =>
        obtain ⟨status, content⟩ := sc
        by_cases hst : status = 200
        · subst hst
          rw [downloadOne_ok get idx p content hcond hget] at hset ⊢
          simp only [Option.some.injEq] at hset
          subst hset
          exact ⟨rfl, content, rfl, rfl⟩
        · rw [downloadOne_badStatus get idx p status content hcond hget hst] at hset
          simp [hnone] at hset
    · rw [downloadOne_skip get idx p hcond] at hset
      simp [hnone] at hset

/-- C6 witness: with an always-succeeding oracle, the local path of a
concrete product is set. -/
theorem C6_download_contract_witness :
    (CrawlerThread.downloadOne (fun _ => some (200, [7])) 1
      ⟨some "/p/1", "First", "9,900", some "//i/1.jpg", "2026-10-12", none⟩).1.thumbnail_local.isSome
      = true := by
  have h := C6_download_contract (fun _ => some (200, [7])) 1
    ⟨some "/p/1", "First", "9,900", some "//i/1.jpg", "2026-10-12", none⟩ 0 [] 0
  exact (h.1 rfl).mpr ⟨by decide, by decide, [7], rfl⟩

/-! ## C7: spreadsheet export -/

/-- The data rows keep the product count. -/
theorem exportRows_length (env : MainWindow.ExportEnv) :
    ∀ (ps : List Product) (idx : Nat),
      (MainWindow.exportRows env idx ps).length = ps.length := by
  intro ps
  induction ps with
  | nil => intro idx; rfl
  | cons p rest ih =>
    intro idx
    simp [MainWindow.exportRows, ih (idx + 1)]

/-- The `i`-th data row is the row of the `i`-th product at enumeration
index `idx + i`. -/
theorem exportRows_get (env : MainWindow.ExportEnv) :
    ∀ (ps : List Product) (idx i : Nat),
      (MainWindow.exportRows env idx ps)[i]? =
        (ps[i]?).map (MainWindow.exportRow env (idx + i)) := by
  intro ps
  induction ps with
  | nil => intro idx i; simp [MainWindow.exportRows]
  | cons p rest ih =>
    intro idx i
    cases i with
    | zero => simp [MainWindow.exportRows]
    | succ i =>
      simp only [MainWindow.exportRows, List.getElem?_cons_succ]
      rw [ih (idx + 1) i]
      have : idx + 1 + i = idx + (i + 1) := by omega
      rw [this]

/-- C7 counterexample: a product whose local path exists in the
filesystem oracle but whose image fails to decode (the inner `try` of
main.py lines 415-458 raises) yields a row with no embedded image and
row height 30 — refuting the claim that every row with an existing local
image path gets an embedded image and row height 75. -/
theorem C7_counterexample :
    (MainWindow.export_to_excel ⟨fun _ => true, fun _ => false⟩
        [⟨some "/p/1", "A", "1,000", some "//i/a.jpg", "2026-10-12", some "thumbnails/1_A.jpg"⟩]).map
      (fun wb => (wb.rows.map (·.hasImage), wb.rows.map (·.rowHeight))) =
      some ([false], [30]) ∧
    (fun (_ : String) => true) "thumbnails/1_A.jpg" = true := by
  decide

/-- C7 (amended): the export produces one header row plus exactly one
data row per (non-empty) product list, preserving order; a row gets an
embedded 100×100 image and row height 75 exactly when its product's
local path is non-empty, exists, and decodes successfully; every other
row (missing or non-existing path, or decode failure) gets row height 30
and no image. -/
theorem C7_export_contract (env : MainWindow.ExportEnv) (ps : List Product)
    (hne : ps ≠ []) :
    ∃ wb, MainWindow.export_to_excel env ps = some wb ∧
      wb.headers.length = 6 ∧
      wb.rows.length = ps.length ∧
      (∀ i, wb.rows[i]? = (ps[i]?).map (MainWindow.exportRow env (i + 1))) ∧
      (∀ i p, ps[i]? = some p →
        ∃ r, wb.rows[i]? = some r ∧ r.row_num = i + 2 ∧ r.name = p.name ∧
          r.price = p.price ∧ r.local_path = p.thumbnail_local.getD "" ∧
          ((p.thumbnail_local.getD "" ≠ "" ∧
              env.fileExists (p.thumbnail_local.getD "") = true ∧
              env.decodeOk (p.thumbnail_local.getD "") = true) →
            r.hasImage = true ∧ r.imgWidth = 100 ∧ r.imgHeight = 100 ∧ r.rowHeight = 75) ∧
          (¬(p.thumbnail_local.getD "" ≠ "" ∧
              env.fileExists (p.thumbnail_local.getD "") = true ∧
              env.decodeOk (p.thumbnail_local.getD "") = true) →
            r.hasImage = false ∧ r.rowHeight = 30)) := by
  refine ⟨⟨["순번", "대표이미지", "상품명", "가격", "썸네일URL", "로컬이미지경로"],
    MainWindow.exportRows env 1 ps⟩, ?_, rfl, exportRows_length env ps 1, ?_, ?_⟩
  · unfold MainWindow.export_to_excel
    rw [if_neg (by simpa [List.isEmpty_iff] using hne)]
  · intro i
    have h := exportRows_get env ps 1 i
    have : 1 + i = i + 1 := by omega
    rw [this] at h
    exact h
  · intro i p hp
    refine ⟨MainWindow.exportRow env (i + 1) p, ?_, ?_⟩
    · have h := exportRows_get env ps 1 i
      have e : 1 + i = i + 1 := by omega
      rw [e] at h
      rw [h, hp]
      rfl
    · unfold MainWindow.exportRow
      by_cases h1 : p.thumbnail_local.getD "" ≠ "" ∧ env.fileExists (p.thumbnail_local.getD "")
      · rw [if_pos h1]
        by_cases h2 : env.decodeOk (p.thumbnail_local.getD "")
        · rw [if_pos h2]
          exact ⟨rfl, rfl, rfl, rfl, fun _ => ⟨rfl, rfl, rfl, rfl⟩,
            fun hc => absurd ⟨h1.1, h1.2, h2⟩ hc⟩
        · rw [if_neg h2]
          refine ⟨rfl, rfl, rfl, rfl, fun hc => absurd hc.2.2 h2, fun _ => ⟨rfl, rfl⟩⟩
      · rw [if_neg h1]
        refine ⟨rfl, rfl, rfl, rfl, fun hc => absurd ⟨hc.1, hc.2.1⟩ h1, fun _ => ⟨rfl, rfl⟩⟩

/-- C7 witness: the export scenario — two products, one with an existing
decodable local JPEG and one with no local path — instantiating the
amended export contract. -/
theorem C7_export_contract_witness :
    ∃ wb, MainWindow.export_to_excel
        ⟨fun s => s = "thumbnails/1_First.jpg", fun _ => true⟩
        [⟨some "/p/1", "First", "9,900", some "//i/1.jpg", "2026-10-12", some "thumbnails/1_First.jpg"⟩,
          ⟨some "/p/2", "Second", "N/A", some "//i/2.jpg", "2026-10-12", none⟩] = some wb ∧
      wb.headers.length = 6 ∧
      wb.rows.length = 2 ∧
      (∀ i, wb.rows[i]? =
        (([⟨some "/p/1", "First", "9,900", some "//i/1.jpg", "2026-10-12", some "thumbnails/1_First.jpg"⟩,
          ⟨some "/p/2", "Second", "N/A", some "//i/2.jpg", "2026-10-12", none⟩] : List Product)[i]?).map
          (MainWindow.exportRow ⟨fun s => s = "thumbnails/1_First.jpg", fun _ => true⟩ (i + 1))) ∧
      (∀ i p,
        (([⟨some "/p/1", "First", "9,900", some "//i/1.jpg", "2026-10-12", some "thumbnails/1_First.jpg"⟩,
          ⟨some "/p/2", "Second", "N/A", some "//i/2.jpg", "2026-10-12", none⟩] : List Product)[i]?) = some p →
        ∃ r, wb.rows[i]? = some r ∧ r.row_num = i + 2 ∧ r.name = p.name ∧
          r.price = p.price ∧ r.local_path = p.thumbnail_local.getD "" ∧
          ((p.thumbnail_local.getD "" ≠ "" ∧
              (fun s => decide (s = "thumbnails/1_First.jpg")) (p.thumbnail_local.getD "") = true ∧
              (fun (_ : String) => true) (p.thumbnail_local.getD "") = true) →
            r.hasImage = true ∧ r.imgWidth = 100 ∧ r.imgHeight = 100 ∧ r.rowHeight = 75) ∧
          (¬(p.thumbnail_local.getD "" ≠ "" ∧
              (fun s => decide (s = "thumbnails/1_First.jpg")) (p.thumbnail_local.getD "") = true ∧
              (fun (_ : String) => true) (p.thumbnail_local.getD "") = true) →
            r.hasImage = false ∧ r.rowHeight = 30)) :=
  C7_export_contract ⟨fun s => s = "thumbnails/1_First.jpg", fun _ => true⟩
    [⟨some "/p/1", "First", "9,900", some "//i/1.jpg", "2026-10-12", some "thumbnails/1_First.jpg"⟩,
      ⟨some "/p/2", "Second", "N/A", some "//i/2.jpg", "2026-10-12", none⟩]
    (by decide)

/-! ## C8: cancellation outcomes -/

/-- Concrete environment for the cancellation scenarios: no failures,
constant page height (the scroll loop breaks after one pass), one
product anchor, an always-successful GET. -/
def cancelScenarioEnv : CrawlerThread.CrawlEnv :=
  { launchFail := false, gotoFail := false, waitFail := false
    heights := fun _ => 0
    anchors := [⟨some "/p/1", none, some "First", some "12,900원", some ⟨some "//i/1.jpg", none, none⟩⟩]
    jsonOracle := fun _ => none
    getOracle := fun _ => some (200, [7])
    today := "2026-10-12" }

/-- C8 counterexample: when the flag is cleared after the extraction
loop has finished (ninth read, clock 8) but before the line-91 check,
the extraction phase has gathered a product, yet the run reports
nothing: the `result` signal is never emitted and `self.products` stays
empty — refuting the claim that cancellation still reports the partial
results gathered before the flag was observed. -/
theorem C8_counterexample :
    (CrawlerThread.run (some 8) cancelScenarioEnv).extracted ≠ [] ∧
    (CrawlerThread.run (some 8) cancelScenarioEnv).resultEmitted = none ∧
    (CrawlerThread.run (some 8) cancelScenarioEnv).products = [] ∧
    (CrawlerThread.run (some 8) cancelScenarioEnv).errorEmitted = none := by
  decide

/-- C8 (amended): if the cancellation flag is already cleared at the
first check, the run extracts zero items, downloads zero items, emits
neither `result` nor `error`, leaves `self.products` empty and still
emits `finished` — a well-formed empty, non-error outcome.  (Partial
results gathered before a later clearing of the flag are discarded, not
reported.) -/
theorem C8_cancel_before_start (env : CrawlerThread.CrawlEnv) (c : Option Nat)
    (h : isRun c 0 = false) :
    CrawlerThread.run c env = ⟨[], none, none, true, [], []⟩ := by
  unfold CrawlerThread.run CrawlerThread.crawl
  dsimp only
  rw [if_pos (show (!isRun c 0) = true by simp [h])]
  rfl

/-- C8 witness: the empty outcome at a concrete environment with the
flag cleared from the start. -/
theorem C8_cancel_before_start_witness :
    CrawlerThread.run (some 0) cancelScenarioEnv = ⟨[], none, none, true, [], []⟩ :=
  C8_cancel_before_start cancelScenarioEnv (some 0) (by decide)

/-! ## C10: error gating by the cancellation flag -/

/-- C10: the `finished` signal is emitted in every case; the `error`
signal only ever fires at a clock where the flag read returned true (so
once the flag has been cleared, any exception raised during the crawl is
swallowed without an error notification); in particular a run cancelled
from the start never emits `error`. -/
theorem C10_error_gating (env : CrawlerThread.CrawlEnv) (c : Option Nat) :
    (CrawlerThread.run c env).finishedEmitted = true ∧
    (∀ k, (CrawlerThread.run c env).errorEmitted = some k → isRun c k = true) ∧
    (c = some 0 → (CrawlerThread.run c env).errorEmitted = none) := by
  have herr : ∀ k, (CrawlerThread.run c env).errorEmitted = some k → isRun c k = true := by
    intro k h
    unfold CrawlerThread.run at h
    dsimp only at h
    by_cases hr : (CrawlerThread.crawl c env).raised
    · rw [if_pos hr] at h
      exact emitIf_eq_some h
    · rw [if_neg hr] at h
      unfold CrawlerThread.crawl at h
      simp only [apply_ite CrawlerThread.CrawlOut.errorEmitted] at h
      repeat' split at h
      all_goals
        first
        | exact emitIf_eq_some h
        | exact Option.noConfusion h
        | (rw [crawlMain_error_none] at h; exact Option.noConfusion h)
  refine ⟨rfl, herr, ?_⟩
  intro hc
  cases he : (CrawlerThread.run c env).errorEmitted with
  | none => rfl
  | some k =>
    have := herr k he
    subst hc
    simp [isRun] at this

/-- C10 witness: a navigation failure without cancellation emits the
error at a clock where the flag was set. -/
theorem C10_error_gating_witness : isRun none 2 = true :=
  (C10_error_gating { cancelScenarioEnv with gotoFail := true } none).2.1 2 (by decide)
